import Mathlib

/-!
Verification of the fp-NGFW-SMC Ansible library modules
(`firewall_nat_rule_facts.py`, `network_element_facts.py`, `route_vpn.py`)
against their natural-language specification.

The modules are shallowly embedded as pure Lean functions over an explicit
model of the SMC server state.  Every call issued to the SMC client library
is recorded in an effect trace, so that "fails before any lookup" and
"issues no mutating call" properties can be stated as facts about the trace.
-/

namespace FpNgfw

/-! ## Python-semantics primitives -/

/-- Python `int(s)` on a string: surrounding whitespace is stripped, an
optional single `+`/`-` sign is allowed, followed by one or more digits.
(The underscore digit-grouping accepted by Python 3.6+ is not modelled;
none of the inputs relevant here contain underscores.)  Implemented over
the character list so that it evaluates by kernel reduction. -/
def parsePyInt (s : String) : Option Int :=
  let cs0 := s.toList.dropWhile Char.isWhitespace
  let cs := (cs0.reverse.dropWhile Char.isWhitespace).reverse
  let core : Bool × List Char :=
    match cs with
    | '-' :: rest => (true, rest)
    | '+' :: rest => (false, rest)
    | rest => (false, rest)
  if core.2.length ≠ 0 ∧ core.2.all Char.isDigit then
    let n : Nat := core.2.foldl (fun a c => a * 10 + (c.toNat - 48)) 0
    some (if core.1 then -(n : Int) else (n : Int))
  else none

/-- Python `s.split(sep)` for a single-character separator: split at every
occurrence, keeping empty tokens.  Implemented structurally over the
character list so that it evaluates by kernel reduction. -/
def pySplitCharAux (sep : Char) : List Char → List Char → List (List Char)
  | [], acc => [acc.reverse]
  | c :: cs, acc =>
    if c == sep then acc.reverse :: pySplitCharAux sep cs []
    else pySplitCharAux sep cs (c :: acc)

/-- Python `s.split(sep)` (single-character separator). -/
def pySplitChar (sep : Char) (s : String) : List String :=
  (pySplitCharAux sep s.toList []).map List.asString

/-- Clamp a (possibly negative) Python slice index against a list length. -/
def pyIndex (n : Nat) (i : Int) : Nat :=
  if i < 0 then ((n : Int) + i).toNat else min i.toNat n

/-- Python slice `l[a:b]` for integer bounds. -/
def pySlice (l : List α) (a b : Int) : List α :=
  (l.take (pyIndex l.length b)).drop (pyIndex l.length a)

/-- Python truthiness of an optional string parameter (`if self.search:`):
`None` and the empty string are falsy. -/
def truthyStr : Option String → Bool
  | none => false
  | some s => !(s == "")

/-- Python `'%s' % x` for an optional string (`None` renders as `"None"`). -/
def pyOptStr : Option String → String
  | none => "None"
  | some s => s

/-- Python `repr` of a list of strings, as used when a list is interpolated
into an error message. -/
def pyStrList (l : List String) : String :=
  "[" ++ String.intercalate ", " (l.map (fun s => "'" ++ s ++ "'")) ++ "]"

/-! ## NAT rule facts module (`firewall_nat_rule_facts.py`)

The SMC-side entities are modelled with just the attributes the module
reads.  A `FirewallPolicy` carries its ordered NAT rule list and the
library-provided `search_rule` operation. -/

/-- A NAT rule as read by the module: `name`, `typeof`, and the header
fields rendered by `to_yaml`. -/
structure NatRule where
  name : String
  typeof : String
  tag : String := ""
  is_disabled : Bool := false
  comment : Option String := none
deriving Repr, DecidableEq

/-- A firewall policy: the result shape of the policy lookup.
`search_rule` is the external library's exact search over name/comment. -/
structure FirewallPolicy where
  name : String
  fw_ipv4_nat_rules : List NatRule
  search_rule : String → List NatRule

/-- The rule header fields emitted by `to_yaml` (lines 170-235).  The
sources/destinations/services and NAT sub-field rendering of `to_yaml`
walks the external SMC object graph (hrefs, nested reference collections)
and is not modelled; no claim depends on it. -/
structure YamlRule where
  name : String
  tag : String
  is_disabled : Bool
  comment : Option String
deriving Repr, DecidableEq

/-- `to_yaml` header rendering (lines 171-174). -/
def to_yaml (rule : NatRule) : YamlRule :=
  ⟨rule.name, rule.tag, rule.is_disabled, rule.comment⟩

/-- One record of the module output: the compact `{name, type}` /
`{name, type, pos}` dicts (lines 311-315) or a `to_yaml` dict (line 306). -/
inductive NatRecord
  | entry (name type_ : String) (pos : Option Nat)
  | yaml (y : YamlRule)
deriving Repr, DecidableEq

/-- The `pos` key of an output record (absent on yaml records). -/
def NatRecord.pos : NatRecord → Option Nat
  | .entry _ _ p => p
  | .yaml _ => none

/-- Module parameters (`module_args`, lines 244-249, plus the base-class
`as_yaml` fact option). -/
structure NatFactsParams where
  filter : String
  expand : List String := []
  search : Option String := none
  rule_range : Option String := none
  as_yaml : Bool := false

/-- Modelled from the spec: the base collaborator `search_by_type`
(module_utils/smc_util, not in src) returns the list of elements of the
requested type matching the `filter` parameter.  The environment holds
that result for this invocation's filter. -/
structure NatFactsEnv where
  policies : List FirewallPolicy

/-- Server calls issued by the facts module. -/
inductive NatEffect
  | searchPolicy (filter : String)
deriving Repr, DecidableEq

/-- The `firewall_nat_rule` payload appended to `ansible_facts`
(lines 320-324). -/
structure NatFactsResult where
  policy : String
  rules : List NatRecord
deriving Repr, DecidableEq

/-- The tuple `expands` (line 238). -/
def natExpands : List String := ["sources", "destinations", "services"]

/-- The expand-validation failure message (lines 277-278); `%s` of the
`expands` tuple renders its Python repr. -/
def natInvalidExpandMsg (attr : String) : String :=
  "Invalid expandable attribute: " ++ attr ++ " provided. Valid " ++
    "options are: ('sources', 'destinations', 'services')"

/-- The malformed-range failure message (lines 299-301). -/
def natRangeErrMsg (rr : String) : String :=
  "Value of rule range was invalid. Rule ranges " ++
    "must be a string with numeric only values, got: " ++ rr

/-- `start, end = map(int, self.rule_range.split('-'))` (line 296): both
tokens must parse as Python ints and there must be exactly two of them,
otherwise a `ValueError` is raised and converted to the range error. -/
def parseRuleRange (s : String) : Option (Int × Int) :=
  match (pySplitChar '-' s).map parsePyInt with
  | [some a, some b] => some (a, b)
  | _ => none

/-- `FirewallNATRuleFacts.exec_module` (lines 271-325).  Returns the fact
payload (or the `fail_json` message) together with the trace of server
calls. -/
def exec_nat_module (env : NatFactsEnv) (p : NatFactsParams) :
    Except String NatFactsResult × List NatEffect :=
  -- lines 275-278: expand validation, before any server access
  match p.expand.find? (fun attr => !(natExpands.contains attr)) with
  | some attr => (.error (natInvalidExpandMsg attr), [])
  | none =>
    -- lines 282-290: resolve exactly one policy by name
    match env.policies with
    | [] => (.error ("Policy specified could not be found: " ++ p.filter),
             [.searchPolicy p.filter])
    | [policy] =>
      -- lines 292-303: select rules by search, range, or full list
      let sel : Except String (List NatRule) :=
        if truthyStr p.search then .ok (policy.search_rule (p.search.getD ""))
        else if truthyStr p.rule_range then
          match parseRuleRange (p.rule_range.getD "") with
          | some (s, e) => .ok (pySlice policy.fw_ipv4_nat_rules (s - 1) e)
          | none => .error (natRangeErrMsg (p.rule_range.getD ""))
        else .ok policy.fw_ipv4_nat_rules
      match sel with
      | .error m => (.error m, [.searchPolicy p.filter])
      | .ok result =>
        -- lines 305-315: record shaping
        let rules : List NatRecord :=
          if p.as_yaml then
            (result.filter (fun r => r.typeof == "fw_ipv4_nat_rule")).map
              (fun r => .yaml (to_yaml r))
          else if truthyStr p.search || truthyStr p.rule_range then
            (result.filter (fun r => r.typeof == "fw_ipv4_nat_rule")).map
              (fun r => .entry r.name r.typeof none)
          else
            (List.enumFrom 1 result).map
              (fun nr => .entry nr.2.name nr.2.typeof (some nr.1))
        (.ok ⟨policy.name, rules⟩, [.searchPolicy p.filter])
    | ps => (.error ("Multiple policies found with the given search filter: " ++
               pyStrList (ps.map (fun q => q.name)) ++
               " Use exact_match or case_sensitive to narrow the search"),
             [.searchPolicy p.filter])

/-- The spec's description of the range selection: the rules in 1-based
inclusive positions `s` through `e` of the ordered rule list. -/
def rulesInRange (l : List α) (s e : Nat) : List α :=
  (l.take e).drop (s - 1)

/-! ## Network element facts module (`network_element_facts.py`) -/

/-- A network element as read by the module. -/
structure NetElement where
  name : String
  typeof : String
deriving Repr, DecidableEq

/-- Module parameters (`module_args`, lines 145-148, plus the base-class
`filter` fact option). -/
structure NetFactsParams where
  element : Option String := none
  expand : List String := []
  filter : Option String := none

/-- One record of the `elements` payload: either the terse `{name, type}`
pair (line 182) or the expanded attribute record (line 180). -/
inductive NetRecord
  | terse (name type_ : String)
  | expanded (d : List (String × String))
deriving Repr, DecidableEq

/-- Server lookups issued by the network element facts module. -/
inductive NetEffect
  | searchByType (element : String)
  | searchByContext
deriving Repr, DecidableEq

/-- Modelled from the spec: the base collaborator `search_by_type` /
`search_by_context` and the `element_dict_from_obj` renderer live in
module_utils/smc_util (not in src).  The environment holds the search
results for this invocation and the fully-expanded attribute record
(with group membership expanded to member name lists when requested)
as an abstract rendering function. -/
structure NetFactsEnv where
  byType : String → List NetElement
  byContext : List NetElement
  expandDict : NetElement → List String → List (String × String)

/-- `NetworkElementFacts.exec_module` (lines 163-185). -/
def exec_net_module (env : NetFactsEnv) (p : NetFactsParams) :
    Except String (List NetRecord) × List NetEffect :=
  -- lines 167-170: expand validation, before any server access
  match p.expand.find? (fun attr => !(attr == "group")) with
  | some attr =>
    (.error ("Invalid expandable attribute: " ++ attr ++ " provided. Valid " ++
       "options are: group"), [])
  | none =>
    -- lines 173-177: search by element type, or across all contexts
    let searched : List NetElement × List NetEffect :=
      if truthyStr p.element then
        (env.byType (p.element.getD ""), [.searchByType (p.element.getD "")])
      else (env.byContext, [.searchByContext])
    -- lines 179-182: expanded records when a text filter is set, terse pairs otherwise
    if truthyStr p.filter then
      (.ok (searched.1.map (fun el => .expanded (env.expandDict el p.expand))),
       searched.2)
    else
      (.ok (searched.1.map (fun el => .terse el.name el.typeof)), searched.2)

/-! ## Route VPN reconciler (`route_vpn.py`)

The SMC server state is modelled explicitly; every client call the module
issues is recorded as an `RvEffect`, with `RvEffect.isMutating` separating
writes (disable/enable/update/create/delete) from reads. -/

/-- An internal (IPSEC) endpoint of a managed engine: an interface address
with its IPSEC-listener enabled flag.  `get_exact` matches on the
address. -/
structure InternalEndpoint where
  address : String
  enabled : Bool
deriving Repr, DecidableEq

/-- A tunnel interface of a managed engine. -/
structure TunnelInterface where
  interface_id : String
deriving Repr, DecidableEq

/-- A physical interface: only its address list is read
(`interface.addresses` yields `(addr, network, nicid)` triples, of which
only the address is used). -/
structure EngineInterface where
  addresses : List String
deriving Repr, DecidableEq

/-- A managed engine.  `interfaceGet` models `engine.interface.get(id)`
(`none` models the `SMCException` raised for an unknown id); the
`internal_endpoints` list models the `engine.vpn.internal_endpoint`
collection. -/
structure Engine where
  name : String
  tunnel_interfaces : List TunnelInterface
  interfaceGet : String → Option EngineInterface
  internal_endpoints : List InternalEndpoint

/-- `engine.vpn.internal_endpoint.get_exact(addr)`: exact match on the
endpoint address. -/
def Engine.get_exact (e : Engine) (addr : String) : Option InternalEndpoint :=
  e.internal_endpoints.find? (fun ep => ep.address == addr)

/-- An existing Route VPN object: its enabled flag and the raw `data.data`
snapshot that the module copies into `results['state']`. -/
structure RouteVPNObj where
  enabled : Bool
  data : List (String × String)
deriving Repr, DecidableEq

/-- One entry of the `external_endpoint` parameter list. -/
structure EndpointParam where
  name : Option String := none
  address : Option String := none
  connection_type : Option String := none
  enabled : Option Bool := none
deriving Repr, DecidableEq

/-- The `vpn_site` parameter: its `name` key and the remaining
element-type keys, each mapping to a list of element names (dict order
preserved). -/
structure VpnSiteParam where
  name : Option String := none
  elements : List (String × List String) := []
deriving Repr, DecidableEq

/-- The `local_gw` / `remote_gw` parameter dict.  A key absent from the
YAML dict is `none`. -/
structure GwParam where
  name : Option String := none
  tunnel_interface : Option String := none
  interface_id : Option String := none
  address : Option String := none
  type_ : Option String := none
  preshared_key : Option String := none
  external_endpoint : Option (List EndpointParam) := none
  vpn_site : Option VpnSiteParam := none
deriving Repr, DecidableEq

/-- Module parameters (`module_args`, lines 251-261).  `check_mode` is the
host-runtime check flag consulted at line 370.  The `type` option
(ipsec/gre) is accepted but never read on any code path modelled here. -/
structure RvParams where
  name : String
  type_ : String := "ipsec"
  local_gw : Option GwParam := none
  remote_gw : Option GwParam := none
  enabled : Option Bool := none
  vpn_profile_name : Option String := none
  state : String := "present"
  preshared_key : Option String := none
  check_mode : Bool := false
deriving Repr, DecidableEq

/-- The SMC server state visible to one reconciler invocation.
`routeVpn` is the `fetch_element(RouteVPN)` result for `params.name`
(modelled from the spec: exact-match lookup in module_utils/smc_util);
`connTypeHref`/`elementHref` model the `Cache` name resolution (modelled
from the spec: the name-to-object cache in module_utils/smc_util records
unresolvable names and yields hrefs for resolvable ones);
`extGwStatus` gives the `(updated, created)` status reported by
`ExternalGateway.update_or_create`; `createdVpn` is the object returned
by `RouteVPN.create_ipsec_tunnel`. -/
structure SmcState where
  routeVpn : Option RouteVPNObj
  engines : String → Option Engine
  connTypeHref : String → Option String
  elementHref : String → String → Option String
  extGwStatus : String → Bool × Bool
  createdVpn : RouteVPNObj

/-- Calls issued against the SMC server by the reconciler. -/
inductive RvEffect
  | fetchVpn (name : String)
  | engineGet (name : String)
  | tunnelIfaceScan (engine : String)
  | interfaceGet (engine iface : String)
  | getExact (engine addr : String)
  | resolveConnType (name : String)
  | resolveSiteElement (etype name : String)
  | disableVpn (name : String)
  | enableVpn (name : String)
  | enableIpsec (engine addr : String)
  | updateOrCreateExtGw (name : String)
  | createVpn (name : String) (preshared_key : Option String)
  | deleteVpn (name : String)
deriving Repr, DecidableEq

/-- Whether an effect writes to the SMC server. -/
def RvEffect.isMutating : RvEffect → Bool
  | .disableVpn _ => true
  | .enableVpn _ => true
  | .enableIpsec _ _ => true
  | .updateOrCreateExtGw _ => true
  | .createVpn _ _ => true
  | .deleteVpn _ => true
  | _ => false

/-- A value stored in the module's `results` dict: the `changed` boolean
or the `state` snapshot (initially the empty list, line 277). -/
inductive RvValue
  | bool (b : Bool)
  | snap (l : List (String × String))
deriving Repr, DecidableEq

/-- The module's `results` dict. -/
abbrev RvResults := List (String × RvValue)

/-- Python dict assignment `d[k] = v` on the results dict. -/
def setKey (d : RvResults) (k : String) (v : RvValue) : RvResults :=
  if d.any (fun kv => kv.1 == k) then
    d.map (fun kv => if kv.1 == k then (k, v) else kv)
  else d ++ [(k, v)]

/-- Python dict lookup `d.get(k)`. -/
def lookupKey (d : RvResults) (k : String) : Option RvValue :=
  (d.find? (fun kv => kv.1 == k)).map (fun kv => kv.2)

/-- `self.results` as initialised in `__init__` (lines 275-278). -/
def initResults : RvResults := [("changed", .bool false), ("state", .snap [])]

/-- `get_managed_gateway` (lines 504-521): require the `name`,
`tunnel_interface` and `interface_id` keys, then `Engine.get(name)`. -/
def get_managed_gateway (env : SmcState) (gw : GwParam) :
    Except String Engine × List RvEffect :=
  if gw.name.isNone || gw.tunnel_interface.isNone || gw.interface_id.isNone then
    (.error "Managed gateway requires name, interface_id and tunnel_interface fields",
     [])
  else
    let nm := gw.name.getD ""
    match env.engines nm with
    | none =>
      (.error ("The specified managed gateway specified does not exist: " ++ nm),
       [.engineGet nm])
    | some engine => (.ok engine, [.engineGet nm])

/-- `get_tunnel_interface` (lines 485-502): scan `engine.tunnel_interface`
for a matching interface id. -/
def get_tunnel_interface (engine : Engine) (interface_id : String) :
    Except String TunnelInterface × List RvEffect :=
  match engine.tunnel_interfaces.find? (fun i => i.interface_id == interface_id) with
  | some ti => (.ok ti, [.tunnelIfaceScan engine.name])
  | none =>
    (.error ("Cannot find specified tunnel interface: " ++ interface_id ++
       " for specified gateway " ++ engine.name), [.tunnelIfaceScan engine.name])

/-- `get_ipsec_endpoint` (lines 440-468): fetch the interface, then either
the single endpoint with the explicit address, or every endpoint whose
address is bound to the interface.  (The text of the library exception
interpolated at line 452 is external; the interface id stands in for it.) -/
def get_ipsec_endpoint (engine : Engine) (interface_id : String)
    (address : Option String) :
    Except String (List InternalEndpoint) × List RvEffect :=
  match engine.interfaceGet interface_id with
  | none =>
    (.error ("Fetch IPSEC interface for endpoint failed: " ++ interface_id),
     [.interfaceGet engine.name interface_id])
  | some interface =>
    let endpoints : List InternalEndpoint :=
      if truthyStr address then (engine.get_exact (address.getD "")).toList
      else interface.addresses.filterMap engine.get_exact
    let effs : List RvEffect :=
      [.interfaceGet engine.name interface_id] ++
        (if truthyStr address then [.getExact engine.name (address.getD "")]
         else interface.addresses.map (.getExact engine.name))
    if endpoints.isEmpty then
      (.error ("No IPSEC endpoint interfaces found. The specified " ++
         "interface ID was: " ++ interface_id ++ " and address: " ++
         pyOptStr address), effs)
    else (.ok endpoints, effs)

/-- `update_ipsec_listener` (lines 470-483): enable the IPSEC listener on
every endpoint not already enabled; report whether anything changed. -/
def update_ipsec_listener (engine : Engine) (eps : List InternalEndpoint) :
    Bool × List RvEffect :=
  (eps.any (fun ep => !ep.enabled),
   (eps.filter (fun ep => !ep.enabled)).map
     (fun ep => .enableIpsec engine.name ep.address))

/-- The fully resolved managed side: engine, tunnel interface, internal
endpoints (the sequence at lines 298-303 and 306-311). -/
def resolve_managed (env : SmcState) (gw : GwParam) :
    Except String (Engine × TunnelInterface × List InternalEndpoint) × List RvEffect :=
  match get_managed_gateway env gw with
  | (.error m, eff) => (.error m, eff)
  | (.ok engine, eff1) =>
    match get_tunnel_interface engine (gw.tunnel_interface.getD "") with
    | (.error m, eff) => (.error m, eff1 ++ eff)
    | (.ok ti, eff2) =>
      match get_ipsec_endpoint engine (gw.interface_id.getD "") gw.address with
      | (.error m, eff) => (.error m, eff1 ++ eff2 ++ eff)
      | (.ok eps, eff3) => (.ok (engine, ti, eps), eff1 ++ eff2 ++ eff3)

/-- One external endpoint entry of the `external_gateway` data built for
`ExternalGateway.update_or_create` (lines 359-364): `connection_type` is
replaced by the resolved `connection_type_ref` href. -/
structure ExtEndpointData where
  name : Option String
  address : Option String
  enabled : Option Bool
  connection_type_ref : String
deriving Repr, DecidableEq

/-- The `external_gateway` dict built at lines 320-364. -/
structure ExtGwData where
  name : String
  vpn_site : Option (String × List String) := none
  external_endpoint : List ExtEndpointData := []
deriving Repr, DecidableEq

/-- The missing-required-field message (lines 317-318). -/
def rvMissingFieldMsg (field : String) : String :=
  "Missing required field for the external endpoint " ++
    "configuration: " ++ field

/-- The external-gateway validation and data build (lines 312-364):
required fields, per-endpoint required fields, connection-type
resolution, optional VPN site resolution. -/
def resolve_external (env : SmcState) (rgw : GwParam) :
    Except String ExtGwData × List RvEffect :=
  -- lines 314-318: required keys, checked in tuple order
  if rgw.name.isNone then (.error (rvMissingFieldMsg "name"), [])
  else if rgw.preshared_key.isNone then
    (.error (rvMissingFieldMsg "preshared_key"), [])
  else if rgw.external_endpoint.isNone then
    (.error (rvMissingFieldMsg "external_endpoint"), [])
  else
    let eps := rgw.external_endpoint.getD []
    -- lines 325-335: the first endpoint entry failing a check aborts,
    -- name/address being checked before connection_type
    match eps.find? (fun ep =>
        ep.name.isNone || ep.address.isNone || ep.connection_type.isNone) with
    | some ep =>
      if ep.name.isNone || ep.address.isNone then
        (.error ("An external endpoint must have at least a " ++
           "name and an address definition."), [])
      else
        (.error ("You must provide the connection_type parameter " ++
           "when creating an external endpoint"), [])
    | none =>
      -- lines 337-339: resolve every connection type through the cache
      let ctypes := eps.map (fun ep => ep.connection_type.getD "")
      let effCt : List RvEffect := ctypes.map .resolveConnType
      let missingCt := ctypes.filter (fun n => (env.connTypeHref n).isNone)
      if !missingCt.isEmpty then (.error (pyStrList missingCt), effCt)
      else
        let extEps : List ExtEndpointData := eps.map (fun ep =>
          ⟨ep.name, ep.address, ep.enabled,
           (env.connTypeHref (ep.connection_type.getD "")).getD ""⟩)
        -- lines 342-357: optional VPN site
        match rgw.vpn_site with
        | none => (.ok ⟨rgw.name.getD "", none, extEps⟩, effCt)
        | some vs =>
          if (vs.name.getD "") == "" then
            (.error "A VPN site requires a name to continue", effCt)
          else
            let effSite : List RvEffect := vs.elements.flatMap
              (fun tn => tn.2.map (RvEffect.resolveSiteElement tn.1))
            let missingSite := vs.elements.flatMap
              (fun tn => tn.2.filter (fun n => (env.elementHref tn.1 n).isNone))
            if !missingSite.isEmpty then
              (.error ("Could not find the specified elements for the " ++
                 "VPN site configuration: " ++ pyStrList missingSite),
               effCt ++ effSite)
            else
              let site_element := vs.elements.flatMap
                (fun tn => tn.2.filterMap (env.elementHref tn.1))
              (.ok ⟨rgw.name.getD "",
                    some (vs.name.getD "", site_element), extEps⟩,
               effCt ++ effSite)

/-- The resolved remote side of the VPN. -/
inductive RemoteSide
  | managed (engine : Engine) (ti : TunnelInterface) (eps : List InternalEndpoint)
  | external (gw : ExtGwData)

/-- Remote-side resolution (lines 305-364): mirror the managed resolution
unless the remote gateway declares `type: external_gateway`. -/
def resolve_remote (env : SmcState) (rgw : GwParam) :
    Except String RemoteSide × List RvEffect :=
  if !(rgw.type_ == some "external_gateway") then
    match resolve_managed env rgw with
    | (.error m, eff) => (.error m, eff)
    | (.ok r, eff) => (.ok (.managed r.1 r.2.1 r.2.2), eff)
  else
    match resolve_external env rgw with
    | (.error m, eff) => (.error m, eff)
    | (.ok g, eff) => (.ok (.external g), eff)

/-- `ForcepointRouteVPN.exec_module` (lines 282-438).  Returns the
`results` dict (or the `fail` message) with the trace of SMC calls. -/
def exec_rv_module (env : SmcState) (p : RvParams) :
    Except String RvResults × List RvEffect :=
  -- Modelled from the spec: the host runtime enforces `required_if`
  -- (state=present requires local_gw and remote_gw, lines 271-273)
  -- before exec_module runs.
  if p.state == "present" && (p.local_gw.isNone || p.remote_gw.isNone) then
    (.error "state is present but all of the following are missing: local_gw, remote_gw",
     [])
  else
  let effFetch : List RvEffect := [.fetchVpn p.name]
  let rbvpn := env.routeVpn
  if p.state == "present" then
    let lgw := p.local_gw.getD {}
    let rgw := p.remote_gw.getD {}
    -- lines 292-296: short circuit disable
    if (match rbvpn, p.enabled with
        | some v, some req => v.enabled && !req
        | _, _ => false) then
      (.ok (setKey initResults "changed" (.bool true)),
       effFetch ++ [.disableVpn p.name])
    else
      -- lines 298-303: local side resolution
      match resolve_managed env lgw with
      | (.error m, eff) => (.error m, effFetch ++ eff)
      | (.ok lres, effL) =>
        -- lines 305-364: remote side resolution
        match resolve_remote env rgw with
        | (.error m, effR) => (.error m, effFetch ++ effL ++ effR)
        | (.ok rem, effR) =>
          -- lines 370-371: check mode returns the untouched results
          if p.check_mode then (.ok initResults, effFetch ++ effL ++ effR)
          else
            match rbvpn with
            | none =>
              -- lines 374-409: creation path
              let listL := update_ipsec_listener lres.1 lres.2.2
              match rem with
              | .managed reng _rti reps =>
                let listR := update_ipsec_listener reng reps
                -- line 409 forces changed=True after creation
                (.ok (setKey (setKey initResults "state"
                        (.snap env.createdVpn.data)) "changed" (.bool true)),
                 effFetch ++ effL ++ effR ++ listL.2 ++ listR.2 ++
                   [.createVpn p.name p.preshared_key])
              | .external g =>
                (.ok (setKey (setKey initResults "state"
                        (.snap env.createdVpn.data)) "changed" (.bool true)),
                 effFetch ++ effL ++ effR ++ listL.2 ++
                   [.updateOrCreateExtGw g.name,
                    .createVpn p.name rgw.preshared_key])
            | some v =>
              -- lines 411-427: existing-VPN path
              let doEnable := !v.enabled && p.enabled == some true
              let effE : List RvEffect :=
                if doEnable then [.enableVpn p.name] else []
              match rem with
              | .managed _ _ _ =>
                (.ok (setKey (setKey initResults "state" (.snap v.data))
                        "changed" (.bool doEnable)),
                 effFetch ++ effL ++ effR ++ effE)
              | .external g =>
                let status := env.extGwStatus g.name
                (.ok (setKey (setKey initResults "state" (.snap v.data))
                        "changed" (.bool (doEnable || status.1 || status.2))),
                 effFetch ++ effL ++ effR ++ effE ++ [.updateOrCreateExtGw g.name])
  else if p.state == "absent" then
    -- lines 429-432
    match rbvpn with
    | some _ =>
      (.ok (setKey initResults "changed" (.bool true)),
       effFetch ++ [.deleteVpn p.name])
    | none => (.ok (setKey initResults "changed" (.bool false)), effFetch)
  else
    -- unreachable under the host's choices validation
    (.ok (setKey initResults "changed" (.bool false)), effFetch)

/-! ## Concrete witness data -/

/-- Shared concrete policy used by the facts-module witnesses. -/
def wP3 : FirewallPolicy :=
  ⟨"TestPolicy",
   [⟨"R1", "fw_ipv4_nat_rule", "", false, none⟩,
    ⟨"R2", "fw_ipv4_nat_rule", "", false, none⟩,
    ⟨"R3", "fw_ipv4_nat_rule", "", false, none⟩],
   fun _ => [⟨"R2", "fw_ipv4_nat_rule", "", false, none⟩]⟩

/-- A trace containing no mutating call. -/
def readsOnly (l : List RvEffect) : Prop := ∀ e ∈ l, e.isMutating = false

/-- Shared concrete server states for the reconciler witnesses. -/
def wVpnOn : RouteVPNObj := ⟨true, [("k", "v")]⟩

def wVpnOff : RouteVPNObj := ⟨false, [("k", "v")]⟩

def wEnvExisting : SmcState :=
  ⟨some wVpnOn, fun _ => none, fun _ => none, fun _ _ => none,
   fun _ => (false, false), ⟨true, []⟩⟩

def wEnvEmpty : SmcState :=
  ⟨none, fun _ => none, fun _ => none, fun _ _ => none,
   fun _ => (false, false), ⟨true, []⟩⟩

def wEnvOffNoEngine : SmcState :=
  ⟨some wVpnOff, fun _ => none, fun _ => none, fun _ _ => none,
   fun _ => (false, false), ⟨true, []⟩⟩

def wLgw : GwParam :=
  { name := some "fw", tunnel_interface := some "1000",
    interface_id := some "0" }

/-- A fully resolvable managed engine used by the reconciler witnesses. -/
def wEng : Engine :=
  ⟨"fw", [⟨"1000"⟩],
   fun i => if i == "0" then some ⟨["1.1.1.1"]⟩ else none,
   [⟨"1.1.1.1", true⟩]⟩

/-- No existing VPN; every lookup resolvable. -/
def wEnvCreate : SmcState :=
  ⟨none, fun n => if n == "fw" then some wEng else none,
   fun _ => some "ct-href", fun _ _ => some "e-href",
   fun _ => (false, true), ⟨true, [("name", "vpn1")]⟩⟩

/-- Existing enabled VPN; every lookup resolvable. -/
def wEnvOnResolvable : SmcState :=
  ⟨some wVpnOn, fun n => if n == "fw" then some wEng else none,
   fun _ => some "ct-href", fun _ _ => some "e-href",
   fun _ => (false, true), ⟨true, [("name", "vpn1")]⟩⟩

/-- The external-gateway definition used by the C9 witness: complete,
with its own preshared key distinct from the module-level one. -/
def wRgwExt : GwParam :=
  { name := some "extgw", type_ := some "external_gateway",
    preshared_key := some "sekrit",
    external_endpoint := some
      [{ name := some "ep1", address := some "9.9.9.9",
         connection_type := some "Active" }] }

/-- The external-gateway definition used by the C6 counterexample and
witness: `type: external_gateway` but no `preshared_key`. -/
def wRgwNoKey : GwParam :=
  { name := some "extgw", type_ := some "external_gateway",
    external_endpoint := some
      [{ name := some "ep1", address := some "9.9.9.9",
         connection_type := some "Active" }] }


/-! ## Slice lemmas -/

theorem take_min_length (l : List α) (m : Nat) :
    l.take (min m l.length) = l.take m := by
  rcases Nat.le_total m l.length with h | h
  · rw [Nat.min_eq_left h]
  · rw [Nat.min_eq_right h, List.take_length, List.take_of_length_le h]

theorem drop_min_of_length_le (l : List α) (a n : Nat) (h : l.length ≤ n) :
    l.drop (min a n) = l.drop a := by
  rcases Nat.le_total a n with h2 | h2
  · rw [Nat.min_eq_left h2]
  · rw [Nat.min_eq_right h2, List.drop_eq_nil_of_le h,
      List.drop_eq_nil_of_le (Nat.le_trans h h2)]

/-- A Python slice `l[s-1:e]` with `1 ≤ s` is exactly the 1-based
inclusive position range `s..e`. -/
theorem pySlice_eq_rulesInRange (l : List α) (s e : Int)
    (hs : 1 ≤ s) (he : 0 ≤ e) :
    pySlice l (s - 1) e = rulesInRange l s.toNat e.toNat := by
  unfold pySlice pyIndex rulesInRange
  rw [if_neg (by omega : ¬(e < 0)), if_neg (by omega : ¬(s - 1 < 0))]
  rw [take_min_length]
  rw [drop_min_of_length_le _ _ _
    (by rw [List.length_take]; exact Nat.min_le_right _ _)]
  congr 1
  omega

theorem rulesInRange_subset (l : List α) (s e : Nat) :
    rulesInRange l s e ⊆ l :=
  fun _ h => List.take_subset _ _ (List.drop_subset _ _ h)

/-- Under the collection invariant that every rule of the policy is a
`fw_ipv4_nat_rule`, the type filter on the output paths is the
identity. -/
theorem filter_nat_typeof {l m : List NatRule} (hsub : m ⊆ l)
    (hall : ∀ r ∈ l, r.typeof = "fw_ipv4_nat_rule") :
    m.filter (fun r => r.typeof == "fw_ipv4_nat_rule") = m :=
  List.filter_eq_self.mpr (fun r hr => by
    have h := hall r (hsub hr)
    simp [h])

/-- A malformed token makes the whole range parse fail. -/
theorem parseRuleRange_eq_none {s t : String}
    (ht : t ∈ pySplitChar '-' s) (hnone : parsePyInt t = none) :
    parseRuleRange s = none := by
  unfold parseRuleRange
  rcases hsp : pySplitChar '-' s with _ | ⟨a, _ | ⟨b, rest⟩⟩ <;> rw [hsp] at ht
  · simp at ht
  · simp at ht
    subst ht
    simp [hnone]
  · cases rest with
    | nil =>
      simp at ht
      rcases ht with h | h
      · subst h; simp [hnone]
      · subst h
        cases hpa : parsePyInt a <;> simp [hnone, hpa]
    | cons c cs =>
      cases hpa : parsePyInt a <;> cases hpb : parsePyInt b <;> simp [hpa, hpb]

theorem parseRuleRange_empty : parseRuleRange "" = none := by decide

/-! ## Claims on the facts modules -/

/-- C4: on a policy whose ordered NAT rule list is all of type
`fw_ipv4_nat_rule`, a well-formed numeric range `"s-e"` returns exactly
the rules in 1-based inclusive positions `s` through `e`, as `{name,
type}` records with no `pos` field; the search path likewise emits
records with no `pos` field; the unfiltered full-list query returns each
rule with `pos` equal to its 1-based index. -/
theorem nat_rule_range_slice_and_positions
    (P : FirewallPolicy) (f rr q : String) (s e : Int)
    (hall : ∀ r ∈ P.fw_ipv4_nat_rules, r.typeof = "fw_ipv4_nat_rule")
    (hparse : parseRuleRange rr = some (s, e)) (hs : 1 ≤ s) (he : 0 ≤ e)
    (hq : q ≠ "") :
    exec_nat_module ⟨[P]⟩ ⟨f, [], none, some rr, false⟩ =
      (.ok ⟨P.name, (rulesInRange P.fw_ipv4_nat_rules s.toNat e.toNat).map
         (fun r => .entry r.name r.typeof none)⟩, [.searchPolicy f]) ∧
    (∀ i : Nat,
      ((exec_nat_module ⟨[P]⟩ ⟨f, [], none, none, false⟩).1.toOption.bind
          (fun out => out.rules[i]?)) =
        (P.fw_ipv4_nat_rules[i]?).map
          (fun r => .entry r.name r.typeof (some (i + 1)))) ∧
    exec_nat_module ⟨[P]⟩ ⟨f, [], some q, none, false⟩ =
      (.ok ⟨P.name, ((P.search_rule q).filter
           (fun r => r.typeof == "fw_ipv4_nat_rule")).map
         (fun r => .entry r.name r.typeof none)⟩, [.searchPolicy f]) := by
  have hrr : rr ≠ "" := by
    intro hE
    rw [hE, parseRuleRange_empty] at hparse
    exact absurd hparse (by simp)
  have hfilter := filter_nat_typeof
    (rulesInRange_subset P.fw_ipv4_nat_rules s.toNat e.toNat) hall
  refine ⟨?_, ?_, ?_⟩
  · unfold exec_nat_module
    simp [truthyStr, hrr, hparse, pySlice_eq_rulesInRange _ _ _ hs he, hfilter]
  · intro i
    have hfull : exec_nat_module ⟨[P]⟩ ⟨f, [], none, none, false⟩ =
        (.ok ⟨P.name, (List.enumFrom 1 P.fw_ipv4_nat_rules).map
           (fun nr => .entry nr.2.name nr.2.typeof (some nr.1))⟩,
         [.searchPolicy f]) := by
      unfold exec_nat_module
      simp [truthyStr]
    rw [hfull]
    show ((List.enumFrom 1 P.fw_ipv4_nat_rules).map
      (fun nr => NatRecord.entry nr.2.name nr.2.typeof (some nr.1)))[i]? = _
    rw [List.getElem?_map, List.getElem?_enumFrom]
    cases P.fw_ipv4_nat_rules[i]? <;> simp [Nat.add_comm 1 i]
  · unfold exec_nat_module
    simp [truthyStr, hq]

theorem nat_rule_range_slice_and_positions_witness :
    exec_nat_module ⟨[wP3]⟩ ⟨"TestPolicy", [], none, some "1-2", false⟩ =
      (.ok ⟨wP3.name, (rulesInRange wP3.fw_ipv4_nat_rules (1 : Int).toNat
          (2 : Int).toNat).map
         (fun r => .entry r.name r.typeof none)⟩, [.searchPolicy "TestPolicy"]) ∧
    ((exec_nat_module ⟨[wP3]⟩ ⟨"TestPolicy", [], none, none, false⟩).1.toOption.bind
        (fun out => out.rules[1]?)) =
      (wP3.fw_ipv4_nat_rules[1]?).map
        (fun r => .entry r.name r.typeof (some 2)) := by
  have h := nat_rule_range_slice_and_positions wP3 "TestPolicy" "1-2" "rulet" 1 2
    (by decide) (by decide) (by decide) (by decide) (by decide)
  exact ⟨h.1, h.2.1 1⟩

/-- C7: a `rule_range` string containing a non-numeric token fails with
the descriptive value-format message naming the offending range, and
never yields a silent empty result. -/
theorem nat_rule_range_invalid_token
    (P : FirewallPolicy) (f rr t : String)
    (hne : rr ≠ "") (ht : t ∈ pySplitChar '-' rr) (hbad : parsePyInt t = none) :
    exec_nat_module ⟨[P]⟩ ⟨f, [], none, some rr, false⟩ =
      (.error (natRangeErrMsg rr), [.searchPolicy f]) := by
  unfold exec_nat_module
  simp [truthyStr, hne, parseRuleRange_eq_none ht hbad]

theorem nat_rule_range_invalid_token_witness :
    exec_nat_module ⟨[wP3]⟩ ⟨"TestPolicy", [], none, some "a-b", false⟩ =
      (.error (natRangeErrMsg "a-b"), [.searchPolicy "TestPolicy"]) :=
  nat_rule_range_invalid_token wP3 "TestPolicy" "a-b" "a"
    (by decide) (by decide) (by decide)

/-- C10: a syntactically numeric range whose start exceeds its end or
whose bounds lie beyond the rule count succeeds and returns the Python
slice `[s-1:e]` of the ordered rule list (possibly empty), rather than
failing. -/
theorem nat_rule_range_python_slice
    (P : FirewallPolicy) (f rr : String) (s e : Int)
    (hparse : parseRuleRange rr = some (s, e))
    (_hoob : e < s ∨ (P.fw_ipv4_nat_rules.length : Int) < e ∨
      (P.fw_ipv4_nat_rules.length : Int) < s)
    (hall : ∀ r ∈ P.fw_ipv4_nat_rules, r.typeof = "fw_ipv4_nat_rule") :
    exec_nat_module ⟨[P]⟩ ⟨f, [], none, some rr, false⟩ =
      (.ok ⟨P.name, (pySlice P.fw_ipv4_nat_rules (s - 1) e).map
         (fun r => .entry r.name r.typeof none)⟩, [.searchPolicy f]) := by
  have hrr : rr ≠ "" := by
    intro hE
    rw [hE, parseRuleRange_empty] at hparse
    exact absurd hparse (by simp)
  have hfilter := filter_nat_typeof
    (fun r hr => List.take_subset _ _ (List.drop_subset _ _ hr) :
      pySlice P.fw_ipv4_nat_rules (s - 1) e ⊆ P.fw_ipv4_nat_rules) hall
  unfold exec_nat_module
  simp [truthyStr, hrr, hparse, hfilter]

theorem nat_rule_range_python_slice_witness :
    exec_nat_module ⟨[wP3]⟩ ⟨"TestPolicy", [], none, some "3-1", false⟩ =
      (.ok ⟨wP3.name, (pySlice wP3.fw_ipv4_nat_rules ((3 : Int) - 1) 1).map
         (fun r => .entry r.name r.typeof none)⟩, [.searchPolicy "TestPolicy"]) :=
  nat_rule_range_python_slice wP3 "TestPolicy" "3-1" 3 1
    (by decide) (by decide) (by decide)

/-- C8: an expand entry outside the module's valid set makes either query
module fail before any server lookup (empty effect trace), with the
message enumerating the valid options. -/
theorem invalid_expand_fails_fast
    (env1 : NatFactsEnv) (p1 : NatFactsParams) (a1 : String)
    (h1 : p1.expand.find? (fun attr => !(natExpands.contains attr)) = some a1)
    (env2 : NetFactsEnv) (p2 : NetFactsParams) (a2 : String)
    (h2 : p2.expand.find? (fun attr => !(attr == "group")) = some a2) :
    exec_nat_module env1 p1 = (.error (natInvalidExpandMsg a1), []) ∧
    exec_net_module env2 p2 =
      (.error ("Invalid expandable attribute: " ++ a2 ++ " provided. Valid " ++
         "options are: group"), []) := by
  constructor
  · unfold exec_nat_module
    rw [h1]
  · unfold exec_net_module
    rw [h2]

/-! ## Effect-trace lemmas for the reconciler -/

theorem readsOnly_nil : readsOnly [] :=
  fun e he => absurd he (List.not_mem_nil e)

theorem readsOnly_singleton (e : RvEffect) (h : e.isMutating = false) :
    readsOnly [e] := by
  intro x hx
  rw [List.mem_singleton] at hx
  subst hx
  exact h

theorem readsOnly_append {l1 l2 : List RvEffect}
    (h1 : readsOnly l1) (h2 : readsOnly l2) : readsOnly (l1 ++ l2) :=
  fun e he => (List.mem_append.mp he).elim (h1 e) (h2 e)

theorem readsOnly_map (f : α → RvEffect) (h : ∀ a, (f a).isMutating = false)
    (l : List α) : readsOnly (l.map f) := by
  intro e he
  obtain ⟨a, _, rfl⟩ := List.mem_map.mp he
  exact h a

theorem readsOnly_flatMap (f : α → List RvEffect)
    (h : ∀ a, readsOnly (f a)) (l : List α) : readsOnly (l.flatMap f) := by
  intro e he
  obtain ⟨a, _, hm⟩ := List.mem_flatMap.mp he
  exact h a e hm

theorem get_managed_gateway_readonly (env : SmcState) (gw : GwParam) :
    readsOnly (get_managed_gateway env gw).2 := by
  unfold get_managed_gateway
  dsimp only
  split
  · exact readsOnly_nil
  · split <;> simp [readsOnly, RvEffect.isMutating]

theorem get_tunnel_interface_readonly (engine : Engine) (iid : String) :
    readsOnly (get_tunnel_interface engine iid).2 := by
  unfold get_tunnel_interface
  split <;> simp [readsOnly, RvEffect.isMutating]

theorem get_ipsec_endpoint_readonly (engine : Engine) (iid : String)
    (addr : Option String) :
    readsOnly (get_ipsec_endpoint engine iid addr).2 := by
  unfold get_ipsec_endpoint
  dsimp only
  split
  · simp [readsOnly, RvEffect.isMutating]
  · repeat' split
    all_goals simp [readsOnly, RvEffect.isMutating]

theorem resolve_managed_readonly (env : SmcState) (gw : GwParam) :
    readsOnly (resolve_managed env gw).2 := by
  unfold resolve_managed
  split
  · next heq =>
    have h := get_managed_gateway_readonly env gw
    rw [heq] at h
    exact h
  · next engine eff1 heq =>
    have h1 := get_managed_gateway_readonly env gw
    rw [heq] at h1
    split
    · next heq2 =>
      have h2 := get_tunnel_interface_readonly engine (gw.tunnel_interface.getD "")
      rw [heq2] at h2
      exact readsOnly_append h1 h2
    · next ti eff2 heq2 =>
      have h2 := get_tunnel_interface_readonly engine (gw.tunnel_interface.getD "")
      rw [heq2] at h2
      split <;>
        (next heq3 =>
          have h3 := get_ipsec_endpoint_readonly engine (gw.interface_id.getD "")
            gw.address
          rw [heq3] at h3
          exact readsOnly_append (readsOnly_append h1 h2) h3)

theorem resolve_external_readonly (env : SmcState) (rgw : GwParam) :
    readsOnly (resolve_external env rgw).2 := by
  unfold resolve_external
  dsimp only
  repeat' split
  all_goals
    first
      | exact readsOnly_nil
      | (simp [readsOnly, RvEffect.isMutating]; done)
      | (simp only [readsOnly, List.mem_append, List.mem_map, List.mem_flatMap]
         intro e he
         rcases he with ⟨a, ha, rfl⟩ | ⟨x, y, hxy, z, hz, rfl⟩ <;> rfl)

theorem resolve_remote_readonly (env : SmcState) (rgw : GwParam) :
    readsOnly (resolve_remote env rgw).2 := by
  unfold resolve_remote
  split
  · split
    · next heq =>
      have h := resolve_managed_readonly env rgw
      rw [heq] at h
      exact h
    · next r eff heq =>
      have h := resolve_managed_readonly env rgw
      rw [heq] at h
      exact h
  · split
    · next heq =>
      have h := resolve_external_readonly env rgw
      rw [heq] at h
      exact h
    · next g eff heq =>
      have h := resolve_external_readonly env rgw
      rw [heq] at h
      exact h

/-- A managed remote side only arises when the remote gateway does not
declare `type: external_gateway`. -/
theorem resolve_remote_managed_type (env : SmcState) (rgw : GwParam)
    (e : Engine) (t : TunnelInterface) (eps : List InternalEndpoint)
    (eff : List RvEffect)
    (h : resolve_remote env rgw = (.ok (.managed e t eps), eff)) :
    (rgw.type_ == some "external_gateway") = false := by
  unfold resolve_remote at h
  split at h
  · next hc => simpa using hc
  · split at h <;> simp_all

/-- An external remote side only arises when the remote gateway declares
`type: external_gateway`. -/
theorem resolve_remote_external_type (env : SmcState) (rgw : GwParam)
    (g : ExtGwData) (eff : List RvEffect)
    (h : resolve_remote env rgw = (.ok (.external g), eff)) :
    (rgw.type_ == some "external_gateway") = true := by
  unfold resolve_remote at h
  split at h
  · next hc =>
    split at h <;> simp_all
  · next hc => simpa using hc

theorem setKey_init_changed (b : Bool) :
    setKey initResults "changed" (.bool b) =
      [("changed", .bool b), ("state", .snap [])] := rfl

theorem setKey_init_state_changed (d : List (String × String)) (b : Bool) :
    setKey (setKey initResults "state" (.snap d)) "changed" (.bool b) =
      [("changed", .bool b), ("state", .snap d)] := rfl

/-! ## Claims on the reconciler -/

/-- C5: with state=absent the reconciler deletes an existing Route VPN and
reports changed=true; when no VPN exists it is a no-op reporting
changed=false, issuing no mutating call. -/
theorem rv_absent_delete_or_noop (env : SmcState) (p : RvParams)
    (hstate : p.state = "absent") :
    (∀ v, env.routeVpn = some v →
      exec_rv_module env p =
        (.ok [("changed", .bool true), ("state", .snap [])],
         [.fetchVpn p.name, .deleteVpn p.name])) ∧
    (env.routeVpn = none →
      exec_rv_module env p =
        (.ok [("changed", .bool false), ("state", .snap [])],
         [.fetchVpn p.name])) := by
  constructor
  · intro v hv
    unfold exec_rv_module
    simp [hstate, hv, setKey_init_changed]
  · intro hv
    unfold exec_rv_module
    simp [hstate, hv, setKey_init_changed]

theorem rv_absent_delete_or_noop_witness :
    exec_rv_module wEnvExisting
        ⟨"vpn1", "ipsec", none, none, none, none, "absent", none, false⟩ =
      (.ok [("changed", .bool true), ("state", .snap [])],
       [.fetchVpn "vpn1", .deleteVpn "vpn1"]) ∧
    exec_rv_module wEnvEmpty
        ⟨"vpn1", "ipsec", none, none, none, none, "absent", none, false⟩ =
      (.ok [("changed", .bool false), ("state", .snap [])],
       [.fetchVpn "vpn1"]) :=
  ⟨(rv_absent_delete_or_noop wEnvExisting _ rfl).1 wVpnOn rfl,
   (rv_absent_delete_or_noop wEnvEmpty _ rfl).2 rfl⟩

/-- C2: with state=present, an existing enabled VPN and a requested
enabled=false, the reconciler disables the VPN and returns changed=true
immediately, with no resolution reads and no endpoint effects in the
trace; asymmetrically, requesting enabled=true on an existing disabled
VPN goes through local-gateway resolution first, so an unresolvable local
engine makes that invocation fail without any enable call. -/
theorem rv_disable_short_circuit_asymmetric
    (env1 : SmcState) (p1 : RvParams) (lgw1 rgw1 : GwParam) (v1 : RouteVPNObj)
    (h1s : p1.state = "present") (h1l : p1.local_gw = some lgw1)
    (h1r : p1.remote_gw = some rgw1) (h1v : env1.routeVpn = some v1)
    (h1e : v1.enabled = true) (h1req : p1.enabled = some false)
    (env2 : SmcState) (p2 : RvParams) (lgw2 rgw2 : GwParam) (v2 : RouteVPNObj)
    (nm : String)
    (h2s : p2.state = "present") (h2l : p2.local_gw = some lgw2)
    (h2r : p2.remote_gw = some rgw2) (h2v : env2.routeVpn = some v2)
    (h2e : v2.enabled = false) (h2req : p2.enabled = some true)
    (h2nm : lgw2.name = some nm) (h2ti : lgw2.tunnel_interface.isNone = false)
    (h2iid : lgw2.interface_id.isNone = false)
    (h2eng : env2.engines nm = none) :
    exec_rv_module env1 p1 =
      (.ok [("changed", .bool true), ("state", .snap [])],
       [.fetchVpn p1.name, .disableVpn p1.name]) ∧
    exec_rv_module env2 p2 =
      (.error ("The specified managed gateway specified does not exist: " ++ nm),
       [.fetchVpn p2.name, .engineGet nm]) := by
  constructor
  · unfold exec_rv_module
    simp [h1s, h1l, h1r, h1v, h1e, h1req, setKey_init_changed]
  · unfold exec_rv_module
    unfold resolve_managed get_managed_gateway
    simp [h2s, h2l, h2r, h2v, h2e, h2req, h2nm, h2ti, h2iid, h2eng]

/-- C3: every successful reconciler invocation returns a results dict
containing a `changed` boolean and a `state` entry, on every returning
path (the disable short-circuit and state=absent paths return the
initial empty-list `state` snapshot). -/
theorem rv_result_contract (env : SmcState) (p : RvParams) (r : RvResults)
    (effs : List RvEffect) (h : exec_rv_module env p = (.ok r, effs)) :
    (∃ b, lookupKey r "changed" = some (.bool b)) ∧
    (∃ s, lookupKey r "state" = some s) := by
  unfold exec_rv_module at h
  dsimp only at h
  repeat' split at h
  all_goals
    simp only [Prod.mk.injEq] at h
  all_goals
    obtain ⟨h1, h2⟩ := h
  all_goals
    first
      | (injection h1; done)
      | (injection h1 with h1
         subst h1
         exact ⟨⟨_, rfl⟩, ⟨_, rfl⟩⟩)

theorem rv_result_contract_witness :
    (∃ b, lookupKey [("changed", RvValue.bool false), ("state", RvValue.snap [])]
        "changed" = some (.bool b)) ∧
    (∃ s, lookupKey [("changed", RvValue.bool false), ("state", RvValue.snap [])]
        "state" = some s) :=
  rv_result_contract wEnvEmpty
    ⟨"vpn1", "ipsec", none, none, none, none, "absent", none, false⟩
    [("changed", RvValue.bool false), ("state", RvValue.snap [])]
    [.fetchVpn "vpn1"] rfl

/-- C1 (amended): a check-mode state=present invocation, outside the
enabled-downgrade short-circuit, issues no mutating call, and any
successful return reports changed=false; validation and resolution still
run, with their errors surfaced as failures.  (When the short-circuit
applies — existing enabled VPN and requested enabled=false — the module
disables the VPN even in check mode; see the counterexample.) -/
theorem rv_check_mode_no_mutation (env : SmcState) (p : RvParams)
    (hstate : p.state = "present") (hcm : p.check_mode = true)
    (hsc : (match env.routeVpn, p.enabled with
            | some v, some req => v.enabled && !req
            | _, _ => false) = false) :
    readsOnly (exec_rv_module env p).2 ∧
    (∀ r effs, exec_rv_module env p = (.ok r, effs) →
      lookupKey r "changed" = some (.bool false)) := by
  have hRO : ∀ (m : List RvEffect), readsOnly m →
      readsOnly ([RvEffect.fetchVpn p.name] ++ m) :=
    fun m hm => readsOnly_append (readsOnly_singleton _ rfl) hm
  unfold exec_rv_module
  dsimp only
  simp only [hstate, hcm, hsc,
    (show (("present" == "present") = true) from rfl),
    eq_self_iff_true, if_true, Bool.true_and, Bool.false_eq_true, if_false]
  split
  · exact ⟨readsOnly_nil, by intro r effs hh; simp at hh⟩
  · split
    · next m eff heq =>
      refine ⟨hRO _ ?_, by intro r effs hh; simp at hh⟩
      have hl := resolve_managed_readonly env (p.local_gw.getD {})
      rw [heq] at hl
      exact hl
    · next lres effL heq =>
      have hl := resolve_managed_readonly env (p.local_gw.getD {})
      rw [heq] at hl
      split
      · next m effR heq2 =>
        have h2 := resolve_remote_readonly env (p.remote_gw.getD {})
        rw [heq2] at h2
        exact ⟨hRO _ (readsOnly_append hl h2),
          by intro r effs hh; simp at hh⟩
      · next rem effR heq2 =>
        have h2 := resolve_remote_readonly env (p.remote_gw.getD {})
        rw [heq2] at h2
        constructor
        · exact hRO _ (readsOnly_append hl h2)
        · intro r effs hh
          simp only [Prod.mk.injEq] at hh
          injection hh.1 with h1
          subst h1
          rfl

theorem not_createVpn_of_readsOnly {l : List RvEffect} (h : readsOnly l)
    (nm : String) (k : Option String) : RvEffect.createVpn nm k ∉ l := by
  intro hm
  have hx := h _ hm
  simp [RvEffect.isMutating] at hx

/-- C9: whenever a Route VPN creation call is issued, the preshared key
bound into it is the external gateway's `preshared_key` when the remote
side is an external gateway (overriding any module-level value), and the
module-level `preshared_key` otherwise. -/
theorem rv_create_psk_binding (env : SmcState) (p : RvParams) (rgw : GwParam)
    (nm : String) (k : Option String)
    (hr : p.remote_gw = some rgw)
    (hmem : RvEffect.createVpn nm k ∈ (exec_rv_module env p).2) :
    nm = p.name ∧
    k = (if rgw.type_ == some "external_gateway" then rgw.preshared_key
         else p.preshared_key) := by
  unfold exec_rv_module at hmem
  dsimp only at hmem
  rw [hr] at hmem
  simp only [Option.getD_some, update_ipsec_listener] at hmem
  split at hmem
  · simp at hmem
  · split at hmem
    · -- state == "present"
      split at hmem
      · -- disable short-circuit: [fetchVpn, disableVpn]
        simp at hmem
      · split at hmem
        · next m eff heq =>
          exfalso
          have hro := resolve_managed_readonly env (p.local_gw.getD {})
          rw [heq] at hro
          simp only [List.mem_append, List.mem_singleton] at hmem
          rcases hmem with h | h
          · simp at h
          · exact absurd (hro _ h) (by simp [RvEffect.isMutating])
        · next lres effL heqL =>
          have hroL := resolve_managed_readonly env (p.local_gw.getD {})
          rw [heqL] at hroL
          split at hmem
          · next m effR heqR =>
            exfalso
            have hroR := resolve_remote_readonly env rgw
            rw [heqR] at hroR
            simp only [List.mem_append, List.mem_singleton] at hmem
            rcases hmem with (h | h) | h
            · simp at h
            · exact absurd (hroL _ h) (by simp [RvEffect.isMutating])
            · exact absurd (hroR _ h) (by simp [RvEffect.isMutating])
          · next rem effR heqR =>
            have hroR := resolve_remote_readonly env rgw
            rw [heqR] at hroR
            split at hmem
            · -- check mode
              exfalso
              simp only [List.mem_append, List.mem_singleton] at hmem
              rcases hmem with (h | h) | h
              · simp at h
              · exact absurd (hroL _ h) (by simp [RvEffect.isMutating])
              · exact absurd (hroR _ h) (by simp [RvEffect.isMutating])
            · split at hmem
              · -- creation path
                split at hmem
                · -- managed remote
                  next reng rti reps =>
                  have htype := resolve_remote_managed_type env rgw _ _ _ _ heqR
                  simp only [List.mem_append, List.mem_singleton,
                    List.mem_map] at hmem
                  rcases hmem with ((((h | h) | h) | ⟨a, _, h⟩) | ⟨a, _, h⟩) | h
                  · simp at h
                  · exact absurd (hroL _ h) (by simp [RvEffect.isMutating])
                  · exact absurd (hroR _ h) (by simp [RvEffect.isMutating])
                  · simp at h
                  · simp at h
                  · injection h with h1 h2
                    rw [htype]
                    simp only [Bool.false_eq_true, if_false]
                    exact ⟨h1, h2⟩
                · -- external remote
                  next g =>
                  have htype := resolve_remote_external_type env rgw _ _ heqR
                  simp only [List.mem_append, List.mem_singleton,
                    List.mem_map, List.mem_cons, List.not_mem_nil,
                    or_false] at hmem
                  rcases hmem with (((h | h) | h) | ⟨a, _, h⟩) | h | h
                  · simp at h
                  · exact absurd (hroL _ h) (by simp [RvEffect.isMutating])
                  · exact absurd (hroR _ h) (by simp [RvEffect.isMutating])
                  · simp at h
                  · simp at h
                  · injection h with h1 h2
                    rw [htype]
                    simp only [if_true]
                    exact ⟨h1, h2⟩
              · -- existing-VPN path
                exfalso
                split at hmem
                · -- managed remote: fetch ++ effL ++ effR ++ effE
                  split at hmem
                  · simp only [List.mem_append, List.mem_singleton] at hmem
                    rcases hmem with ((h | h) | h) | h
                    · simp at h
                    · exact absurd h (not_createVpn_of_readsOnly hroL _ _)
                    · exact absurd h (not_createVpn_of_readsOnly hroR _ _)
                    · simp at h
                  · simp only [List.append_nil, List.mem_append,
                      List.mem_singleton] at hmem
                    rcases hmem with (h | h) | h
                    · simp at h
                    · exact absurd h (not_createVpn_of_readsOnly hroL _ _)
                    · exact absurd h (not_createVpn_of_readsOnly hroR _ _)
                · -- external remote: ... ++ effE ++ [updateOrCreateExtGw]
                  split at hmem
                  · simp only [List.mem_append, List.mem_singleton] at hmem
                    rcases hmem with (((h | h) | h) | h) | h
                    · simp at h
                    · exact absurd h (not_createVpn_of_readsOnly hroL _ _)
                    · exact absurd h (not_createVpn_of_readsOnly hroR _ _)
                    · simp at h
                    · simp at h
                  · simp only [List.append_nil, List.mem_append,
                      List.mem_singleton] at hmem
                    rcases hmem with ((h | h) | h) | h
                    · simp at h
                    · exact absurd h (not_createVpn_of_readsOnly hroL _ _)
                    · exact absurd h (not_createVpn_of_readsOnly hroR _ _)
                    · simp at h
    · -- state not "present"
      split at hmem
      · split at hmem <;> simp at hmem
      · simp at hmem

theorem rv_create_psk_binding_witness :
    "vpn1" = (⟨"vpn1", "ipsec", some wLgw, some wRgwExt, none, none,
      "present", some "modkey", false⟩ : RvParams).name ∧
    (some "sekrit" : Option String) =
      (if wRgwExt.type_ == some "external_gateway" then wRgwExt.preshared_key
       else (⟨"vpn1", "ipsec", some wLgw, some wRgwExt, none, none,
         "present", some "modkey", false⟩ : RvParams).preshared_key) :=
  rv_create_psk_binding wEnvCreate
    ⟨"vpn1", "ipsec", some wLgw, some wRgwExt, none, none, "present",
     some "modkey", false⟩
    wRgwExt "vpn1" (some "sekrit") rfl (by decide)

theorem rv_check_mode_no_mutation_witness :
    readsOnly (exec_rv_module wEnvCreate
      ⟨"vpn1", "ipsec", some wLgw, some wLgw, none, none, "present", none,
       true⟩).2 ∧
    lookupKey initResults "changed" = some (.bool false) := by
  have h := rv_check_mode_no_mutation wEnvCreate
    ⟨"vpn1", "ipsec", some wLgw, some wLgw, none, none, "present", none, true⟩
    rfl rfl rfl
  exact ⟨h.1, h.2 initResults
    ((exec_rv_module wEnvCreate
      ⟨"vpn1", "ipsec", some wLgw, some wLgw, none, none, "present", none,
       true⟩).2) rfl⟩

/-- C1 counterexample: a check-mode state=present invocation with valid,
fully resolvable parameters (existing enabled VPN, resolvable local and
remote gateways) and requested enabled=false issues the mutating disable
call and returns changed=true — check mode does not guard the disable
short-circuit (line 292 precedes the line 370 check). -/
theorem rv_check_mode_counterexample :
    (⟨"vpn1", "ipsec", some wLgw, some wLgw, some false, none, "present",
       none, true⟩ : RvParams).check_mode = true ∧
    exec_rv_module wEnvOnResolvable
        ⟨"vpn1", "ipsec", some wLgw, some wLgw, some false, none, "present",
         none, true⟩ =
      (.ok [("changed", .bool true), ("state", .snap [])],
       [.fetchVpn "vpn1", .disableVpn "vpn1"]) ∧
    RvEffect.isMutating (.disableVpn "vpn1") = true :=
  ⟨rfl, rfl, rfl⟩

/-- Any missing required field of the external-gateway definition makes
the validation of lines 312-335 fail. -/
theorem resolve_external_missing_field (env : SmcState) (rgw : GwParam)
    (hmiss : rgw.name.isNone = true ∨ rgw.preshared_key.isNone = true ∨
      rgw.external_endpoint.isNone = true ∨
      ∃ ep ∈ rgw.external_endpoint.getD [],
        (ep.name.isNone || ep.address.isNone || ep.connection_type.isNone) = true) :
    ∃ m, (resolve_external env rgw).1 = .error m := by
  unfold resolve_external
  dsimp only
  split
  · exact ⟨_, rfl⟩
  · next hn =>
    split
    · exact ⟨_, rfl⟩
    · next hp =>
      split
      · exact ⟨_, rfl⟩
      · next he =>
        split
        · split
          · exact ⟨_, rfl⟩
          · exact ⟨_, rfl⟩
        · next hfind =>
          exfalso
          rcases hmiss with h | h | h | ⟨ep, hep, hbad⟩
          · exact hn h
          · exact hp h
          · exact he h
          · exact (List.find?_eq_none.mp hfind ep hep) hbad

/-- An external-gateway remote whose validation fails makes the remote
resolution fail. -/
theorem resolve_remote_external_error (env : SmcState) (rgw : GwParam)
    (hext : rgw.type_ = some "external_gateway")
    (herr : ∃ m, (resolve_external env rgw).1 = .error m) :
    ∃ m eff, resolve_remote env rgw = (.error m, eff) := by
  obtain ⟨m, hm⟩ := herr
  rcases hre : resolve_external env rgw with ⟨res, eff⟩
  rw [hre] at hm
  dsimp only at hm
  subst hm
  refine ⟨m, eff, ?_⟩
  unfold resolve_remote
  rw [hext, hre]
  simp

/-- C6 (amended): with state=present, outside the enabled-downgrade
short-circuit, an external-gateway remote definition missing any of
name/preshared_key/external_endpoint, or any external endpoint entry
lacking name/address/connection_type, makes the reconciler fail before
any mutating (in particular any creation) call is issued. -/
theorem rv_external_missing_field_fails (env : SmcState) (p : RvParams)
    (lgw rgw : GwParam)
    (hstate : p.state = "present") (hl : p.local_gw = some lgw)
    (hr : p.remote_gw = some rgw)
    (hsc : (match env.routeVpn, p.enabled with
            | some v, some req => v.enabled && !req
            | _, _ => false) = false)
    (hext : rgw.type_ = some "external_gateway")
    (hmiss : rgw.name.isNone = true ∨ rgw.preshared_key.isNone = true ∨
      rgw.external_endpoint.isNone = true ∨
      ∃ ep ∈ rgw.external_endpoint.getD [],
        (ep.name.isNone || ep.address.isNone || ep.connection_type.isNone) = true) :
    (∃ m, (exec_rv_module env p).1 = .error m) ∧
    readsOnly (exec_rv_module env p).2 := by
  have hRO : ∀ (m : List RvEffect), readsOnly m →
      readsOnly ([RvEffect.fetchVpn p.name] ++ m) :=
    fun m hm => readsOnly_append (readsOnly_singleton _ rfl) hm
  unfold exec_rv_module
  dsimp only
  simp only [hstate, hl, hr, hsc,
    (show (("present" == "present") = true) from rfl),
    eq_self_iff_true, if_true, Bool.true_and, Bool.false_eq_true, if_false,
    Option.isNone_some, Bool.or_self, Option.getD_some]
  split
  · next heq =>
    have hro := resolve_managed_readonly env lgw
    rw [heq] at hro
    exact ⟨⟨_, rfl⟩, hRO _ hro⟩
  · next lres effL heqL =>
    have hroL := resolve_managed_readonly env lgw
    rw [heqL] at hroL
    obtain ⟨m, eff, hre⟩ := resolve_remote_external_error env rgw hext
      (resolve_external_missing_field env rgw hmiss)
    rw [hre]
    have hroR := resolve_remote_readonly env rgw
    rw [hre] at hroR
    exact ⟨⟨m, rfl⟩, hRO _ (readsOnly_append hroL hroR)⟩

theorem rv_external_missing_field_fails_witness :
    (∃ m, (exec_rv_module wEnvCreate
      ⟨"vpn1", "ipsec", some wLgw, some wRgwNoKey, none, none, "present",
       none, false⟩).1 = .error m) ∧
    readsOnly (exec_rv_module wEnvCreate
      ⟨"vpn1", "ipsec", some wLgw, some wRgwNoKey, none, none, "present",
       none, false⟩).2 :=
  rv_external_missing_field_fails wEnvCreate
    ⟨"vpn1", "ipsec", some wLgw, some wRgwNoKey, none, none, "present",
     none, false⟩
    wLgw wRgwNoKey rfl rfl rfl rfl rfl (Or.inr (Or.inl rfl))

/-- C6 counterexample: a state=present invocation whose external-gateway
remote lacks `preshared_key` does not fail when the enabled-downgrade
short-circuit applies — it disables the VPN and returns successfully,
with no validation performed. -/
theorem rv_external_missing_key_counterexample :
    wRgwNoKey.type_ = some "external_gateway" ∧
    wRgwNoKey.preshared_key = none ∧
    exec_rv_module wEnvOnResolvable
        ⟨"vpn1", "ipsec", some wLgw, some wRgwNoKey, some false, none,
         "present", none, false⟩ =
      (.ok [("changed", .bool true), ("state", .snap [])],
       [.fetchVpn "vpn1", .disableVpn "vpn1"]) :=
  ⟨rfl, rfl, rfl⟩

theorem rv_disable_short_circuit_asymmetric_witness :
    exec_rv_module wEnvExisting
        ⟨"vpn1", "ipsec", some {}, some {}, some false, none, "present",
         none, false⟩ =
      (.ok [("changed", .bool true), ("state", .snap [])],
       [.fetchVpn "vpn1", .disableVpn "vpn1"]) ∧
    exec_rv_module wEnvOffNoEngine
        ⟨"vpn1", "ipsec", some wLgw, some {}, some true, none, "present",
         none, false⟩ =
      (.error ("The specified managed gateway specified does not exist: " ++ "fw"),
       [.fetchVpn "vpn1", .engineGet "fw"]) :=
  rv_disable_short_circuit_asymmetric
    wEnvExisting _ {} {} wVpnOn rfl rfl rfl rfl rfl rfl
    wEnvOffNoEngine _ wLgw {} wVpnOff "fw" rfl rfl rfl rfl rfl rfl rfl rfl rfl rfl

theorem invalid_expand_fails_fast_witness :
    exec_nat_module ⟨[wP3]⟩ ⟨"TestPolicy", ["bogus"], none, none, false⟩ =
      (.error (natInvalidExpandMsg "bogus"), []) ∧
    exec_net_module ⟨fun _ => [], [], fun _ _ => []⟩
        ⟨none, ["members"], none⟩ =
      (.error ("Invalid expandable attribute: members provided. Valid " ++
         "options are: group"), []) :=
  invalid_expand_fails_fast ⟨[wP3]⟩ ⟨"TestPolicy", ["bogus"], none, none, false⟩
    "bogus" (by decide) ⟨fun _ => [], [], fun _ _ => []⟩
    ⟨none, ["members"], none⟩ "members" (by decide)

end FpNgfw
